import Mathlib

/-!
Shallow embedding of scripts/pr_issue_sync/pr_issue_sync.py.

The script synchronizes the GitHub Projects v2 single-select Status field of
the issues linked to a pull request with the lifecycle state of that pull
request.  Network effects are modelled by explicit environments and failure
oracles, and every modelled function returns the trace of the external calls
it attempts together with its result, so that "this call is never attempted"
and "a failure here aborts the run" become statements about the trace and a
returned abort flag.
-/

namespace PrIssueSync

/-- Python truthiness of an optional integer argument: None and 0 are falsy. -/
def optIntTruthy : Option Int → Bool
  | none => false
  | some k => k != 0

/-- Python truthiness of an optional string argument: None and "" are falsy. -/
def optStrTruthy : Option String → Bool
  | none => false
  | some s => s != ""

/-- The HTTP response as run_graphql sees it: status code and (parsed) body. -/
structure HttpResponse where
  statusCode : Nat
  body : String
  deriving DecidableEq

/-- Embeds run_graphql (lines 65-86 of the source): raise unless the HTTP
status code is exactly 200, otherwise hand the parsed body to the caller. -/
def run_graphql (resp : HttpResponse) : Except String String :=
  if resp.statusCode ≠ 200 then
    Except.error ("Query failed with status code " ++ toString resp.statusCode ++ ": " ++ resp.body)
  else
    Except.ok resp.body

/-- Whether run_graphql returns normally on the given response. -/
def graphqlSucceeds (resp : HttpResponse) : Bool :=
  match run_graphql resp with
  | Except.ok _ => true
  | Except.error _ => false

/-- The HTTP 2xx success statuses, as the words "non-2xx" refer to them. -/
def is2xx (code : Nat) : Bool :=
  decide (200 ≤ code ∧ code < 300)

/-- One option of a single-select project field. -/
structure FieldOption where
  id : String
  name : String
  deriving DecidableEq

/-- One project field together with its single-select options. -/
structure ProjectField where
  id : String
  name : String
  options : List FieldOption
  deriving DecidableEq

/-- The body of the loop of get_status_field_id (lines 172-179): skip fields
not named "Status"; on a "Status" field overwrite field_id and, when an
option literally named like the requested status exists, take the first such
option id, otherwise keep whatever option_id already held. -/
def statusStep (field_name : String) (acc : Option String × Option String)
    (field : ProjectField) : Option String × Option String :=
  if field.name ≠ "Status" then acc
  else
    (some field.id,
      match field.options.find? (fun o => o.name == field_name) with
      | some o => some o.id
      | none => acc.2)

/-- The whole loop of get_status_field_id, started from (None, None). -/
def statusFieldFold (fields : List ProjectField) (field_name : String) :
    Option String × Option String :=
  List.foldl (statusStep field_name) (none, none) fields

/-- Embeds get_status_field_id (lines 148-183): run the loop over the project
fields and raise ValueError when field_id or option_id is still falsy. -/
def get_status_field_id (fields : List ProjectField) (field_name : String) :
    Except String (String × String) :=
  match statusFieldFold fields field_name with
  | (some fid, some oid) =>
      if fid = "" ∨ oid = "" then
        Except.error ("Field '" ++ field_name ++ "' not found in project fields.")
      else
        Except.ok (fid, oid)
  | _ => Except.error ("Field '" ++ field_name ++ "' not found in project fields.")

/-- Embeds get_project_fields (lines 219-251) together with its
functools.lru_cache wrapper: given the current cache cell and the field table
the network would return, produce the returned value, the new cache cell, and
whether a network fetch was performed by this call. -/
def get_project_fields (cache : Option (List ProjectField))
    (remote : List ProjectField) :
    List ProjectField × Option (List ProjectField) × Bool :=
  match cache with
  | some v => (v, some v, false)
  | none => (remote, some remote, true)

/-- A sequence of n calls to get_project_fields on the same handler, threading
the cache cell through; returns the per-call (value, fetched) pairs and the
final cache cell. -/
def runFieldCalls : Nat → Option (List ProjectField) → List ProjectField →
    List (List ProjectField × Bool) × Option (List ProjectField)
  | 0, cache, _ => ([], cache)
  | Nat.succ k, cache, remote =>
    let r := get_project_fields cache remote
    let rest := runFieldCalls k r.2.1 remote
    ((r.1, r.2.2) :: rest.1, rest.2)

/-- The message of the first validation error in set_issue_status (line 54). -/
def eitherMsg : String := "Either issue_number or issue_node_id must be provided."

/-- The message of the second validation error in set_issue_status (line 56). -/
def onlyOneMsg : String := "Only one of issue_number or issue_node_id must be provided."

/-- The argument validation at the top of set_issue_status (lines 53-56),
using Python truthiness exactly as the source does. -/
def validateArgs (issue_number : Option Int) (issue_node_id : Option String) :
    Option String :=
  if !optIntTruthy issue_number && !optStrTruthy issue_node_id then
    some eitherMsg
  else if optIntTruthy issue_number && optStrTruthy issue_node_id then
    some onlyOneMsg
  else
    none

/-- The network calls set_issue_status can attempt. -/
inductive NetCall where
  | getIssue (issue_number : Int)
  | fetchProjectFields
  | setFieldOption (itemId fieldId optionId : String)
  deriving DecidableEq

/-- What set_issue_status reads from the outside world: the project-item id
resolved through repo.get_issue and get_issue_info (none models a failing
lookup), and the field table get_project_fields would return. -/
structure SetStatusEnv where
  getIssueItemId : Int → Option String
  fields : List ProjectField

/-- The tail of set_issue_status after the item id is resolved (lines 62-63):
fetch the field table, look up field and option ids, and only on success
attempt the set_field_option mutation. -/
def resolve_then_set (env : SetStatusEnv) (status : String) (itemId : String)
    (tr : List NetCall) : List NetCall × Except String Unit :=
  match get_status_field_id env.fields status with
  | Except.error e => (tr ++ [NetCall.fetchProjectFields], Except.error e)
  | Except.ok fo =>
      (tr ++ [NetCall.fetchProjectFields, NetCall.setFieldOption itemId fo.1 fo.2],
        Except.ok ())

/-- Embeds set_issue_status (lines 32-63): truthiness validation, then the
branch on issue_number is not None, then field lookup and mutation.  Returns
the trace of attempted network calls and the outcome. -/
def set_issue_status (env : SetStatusEnv) (status : String)
    (issue_number : Option Int) (issue_node_id : Option String) :
    List NetCall × Except String Unit :=
  match validateArgs issue_number issue_node_id with
  | some msg => ([], Except.error msg)
  | none =>
    match issue_number with
    | some k =>
      match env.getIssueItemId k with
      | none => ([NetCall.getIssue k], Except.error "Could not resolve a project item for the issue.")
      | some itemId => resolve_then_set env status itemId [NetCall.getIssue k]
    | none => resolve_then_set env status (issue_node_id.getD "") []

/-- The PR attributes sync_issue_status_with_pr reads (lines 303-315). -/
structure PRSnapshot where
  merged : Bool
  state : String
  draft : Bool
  assignees : List String
  authorLogin : String
  deriving DecidableEq

/-- The attributes of one linked issue that the sync reads and writes. -/
structure IssueState where
  number : Nat
  state : String
  assignees : List String
  status : Option String
  deriving DecidableEq

/-- The per-issue external calls sync_issue_status_with_pr attempts. -/
inductive Action where
  | closeIssue (n : Nat)
  | removeAssignees (n : Nat) (users : List String)
  | setAssignees (n : Nat) (users : List String)
  | setStatus (n : Nat) (status : String)
  deriving DecidableEq

/-- Which external call raises for which issue number: the failure oracle
under which the effectful run is interpreted. -/
structure ApiBehavior where
  closeFails : Nat → Bool
  removeAssigneesFails : Nat → Bool
  setAssigneesFails : Nat → Bool
  setStatusFails : Nat → Bool

/-- Lines 310-312: the PR assignee logins, or the PR author when that list is
empty. -/
def prTargetAssignees (pr : PRSnapshot) : List String :=
  if pr.assignees.isEmpty then [pr.authorLogin] else pr.assignees

/-- Line 360: the status an open PR maps its linked issues to. -/
def openTargetStatus (pr : PRSnapshot) : String :=
  if pr.draft then "In Development" else "Ready For Review"

/-- Python set equality of two login lists, as in set(current) != set(target)
on line 366. -/
def sameSet (a b : List String) : Bool :=
  a.all (fun x => b.contains x) && b.all (fun x => a.contains x)

/-- The merged branch, per issue (lines 327-337): close the issue when it is
still open — this edit is not inside a try/except, so a failure aborts —
then set its status to "Done" (also not caught). -/
def processMergedIssue (api : ApiBehavior) (iss : IssueState) :
    List Action × IssueState × Bool :=
  if iss.state == "open" then
    if api.closeFails iss.number then
      ([Action.closeIssue iss.number], iss, true)
    else
      let iss1 : IssueState := { iss with state := "closed" }
      if api.setStatusFails iss.number then
        ([Action.closeIssue iss.number, Action.setStatus iss.number "Done"], iss1, true)
      else
        ([Action.closeIssue iss.number, Action.setStatus iss.number "Done"],
          { iss1 with status := some "Done" }, false)
  else
    if api.setStatusFails iss.number then
      ([Action.setStatus iss.number "Done"], iss, true)
    else
      ([Action.setStatus iss.number "Done"], { iss with status := some "Done" }, false)

/-- The closed-without-merge branch, per issue (lines 343-357): when the
issue has assignees, attempt to remove them inside try/except — a failure is
logged and skipped — then set the status to "Selected for Development"
(not caught). -/
def processClosedIssue (api : ApiBehavior) (iss : IssueState) :
    List Action × IssueState × Bool :=
  let step1 : List Action × IssueState :=
    if !iss.assignees.isEmpty then
      if api.removeAssigneesFails iss.number then
        ([Action.removeAssignees iss.number iss.assignees], iss)
      else
        ([Action.removeAssignees iss.number iss.assignees], { iss with assignees := [] })
    else ([], iss)
  if api.setStatusFails iss.number then
    (step1.1 ++ [Action.setStatus iss.number "Selected for Development"], step1.2, true)
  else
    (step1.1 ++ [Action.setStatus iss.number "Selected for Development"],
      { step1.2 with status := some "Selected for Development" }, false)

/-- The open branch, per issue (lines 362-372): when the current assignee set
differs from the target set, attempt the wholesale replacement inside
try/except — a failure is logged and skipped — then set the status to the
open target status (not caught). -/
def processOpenIssue (api : ApiBehavior) (pr : PRSnapshot) (iss : IssueState) :
    List Action × IssueState × Bool :=
  let step1 : List Action × IssueState :=
    if !sameSet iss.assignees (prTargetAssignees pr) then
      if api.setAssigneesFails iss.number then
        ([Action.setAssignees iss.number (prTargetAssignees pr)], iss)
      else
        ([Action.setAssignees iss.number (prTargetAssignees pr)],
          { iss with assignees := prTargetAssignees pr })
    else ([], iss)
  if api.setStatusFails iss.number then
    (step1.1 ++ [Action.setStatus iss.number (openTargetStatus pr)], step1.2, true)
  else
    (step1.1 ++ [Action.setStatus iss.number (openTargetStatus pr)],
      { step1.2 with status := some (openTargetStatus pr) }, false)

/-- The per-branch for-loop over the linked issues: an aborting step stops
the run, leaving the remaining issues untouched; a non-aborting step lets the
remaining issues be processed. -/
def processIssues (step : IssueState → List Action × IssueState × Bool) :
    List IssueState → List Action × List IssueState × Bool
  | [] => ([], [], false)
  | iss :: rest =>
    let r := step iss
    if r.2.2 then (r.1, r.2.1 :: rest, true)
    else
      let rr := processIssues step rest
      (r.1 ++ rr.1, r.2.1 :: rr.2.1, rr.2.2)

/-- Embeds sync_issue_status_with_pr (lines 291-372): branch on pr.merged,
then on pr.state == "closed", and run the per-issue loop of that branch over
the linked issues. -/
def sync_issue_status_with_pr (api : ApiBehavior) (pr : PRSnapshot)
    (issues : List IssueState) : List Action × List IssueState × Bool :=
  if pr.merged then processIssues (processMergedIssue api) issues
  else if pr.state == "closed" then processIssues (processClosedIssue api) issues
  else processIssues (processOpenIssue api pr) issues

/-- When every per-issue step succeeds without aborting and rewrites the issue
by f, the loop rewrites the whole list by f and does not abort. -/
lemma processIssues_map (step : IssueState → List Action × IssueState × Bool)
    (f : IssueState → IssueState) (h : ∀ i, (step i).2 = (f i, false)) :
    ∀ issues : List IssueState,
      (processIssues step issues).2 = (issues.map f, false) := by
  intro issues
  induction issues with
  | nil => simp [processIssues]
  | cons i rest ih =>
    simp [processIssues, h i, ih]

/-- A concrete failure-free oracle. -/
def apiOk : ApiBehavior := ⟨fun _ => false, fun _ => false, fun _ => false, fun _ => false⟩

/-- A merged PR snapshot used to instantiate the universal theorems. -/
def prMergedW : PRSnapshot := ⟨true, "closed", false, [], "alice"⟩

/-- A linked issue that is still open. -/
def issOpen10 : IssueState := ⟨10, "open", [], none⟩

/-- A linked issue that is already closed and has an assignee. -/
def issClosed11 : IssueState := ⟨11, "closed", ["bob"], none⟩

/-- C1: for every PR snapshot with merged = true and every list of linked
issues, when none of the close or status-set calls raises,
sync_issue_status_with_pr does not abort, sets every linked issue's status to
"Done", and closes exactly the linked issues that are currently open —
whatever the draft flag, the state string or the assignees of the PR are. -/
theorem sync_merged_sets_done_and_closes (api : ApiBehavior) (pr : PRSnapshot)
    (issues : List IssueState) (hm : pr.merged = true)
    (hc : ∀ k, api.closeFails k = false)
    (hs : ∀ k, api.setStatusFails k = false) :
    (sync_issue_status_with_pr api pr issues).2 =
      (issues.map (fun i =>
        { i with state := if i.state == "open" then "closed" else i.state,
                 status := some "Done" }), false) := by
  unfold sync_issue_status_with_pr
  rw [hm]
  simp only [if_true]
  apply processIssues_map
  intro i
  unfold processMergedIssue
  rw [hc i.number, hs i.number]
  by_cases hst : i.state == "open" <;> simp [hst]

/-- C1 witness: the merged scenario at a concrete PR and issue list. -/
theorem sync_merged_sets_done_and_closes_witness :
    (sync_issue_status_with_pr apiOk prMergedW [issOpen10, issClosed11]).2 =
      ([{ issOpen10 with state := "closed", status := some "Done" },
        { issClosed11 with status := some "Done" }], false) := by
  have h := sync_merged_sets_done_and_closes apiOk prMergedW [issOpen10, issClosed11]
    rfl (fun _ => rfl) (fun _ => rfl)
  rw [h]
  rfl

/-- An open draft PR without assignees, authored by bob. -/
def prOpenDraftW : PRSnapshot := ⟨false, "open", true, [], "bob"⟩

/-- A linked issue with assignees differing from the target set. -/
def issAssigned2 : IssueState := ⟨2, "open", ["carol"], none⟩

/-- C2: for every PR snapshot with merged = false and state = "open", when
none of the assign or status-set calls raises, sync_issue_status_with_pr sets
each linked issue's status to "In Development" exactly when draft = true and
to "Ready For Review" otherwise, and replaces the issue's assignee list
wholesale by the PR assignees — or by the singleton PR author when the PR
assignee list is empty — exactly when the current assignee set differs from
that target set. -/
theorem sync_open_assigns_and_sets_status (api : ApiBehavior) (pr : PRSnapshot)
    (issues : List IssueState) (hm : pr.merged = false) (ho : pr.state = "open")
    (ha : ∀ k, api.setAssigneesFails k = false)
    (hs : ∀ k, api.setStatusFails k = false) :
    (sync_issue_status_with_pr api pr issues).2 =
      (issues.map (fun i =>
        { i with assignees := if sameSet i.assignees (prTargetAssignees pr) then
                                i.assignees
                              else prTargetAssignees pr,
                 status := some (if pr.draft then "In Development"
                                 else "Ready For Review") }), false) := by
  unfold sync_issue_status_with_pr
  rw [hm, ho]
  simp only [Bool.false_eq_true, if_false]
  rw [if_neg (by simp)]
  apply processIssues_map
  intro i
  unfold processOpenIssue openTargetStatus
  rw [ha i.number, hs i.number]
  by_cases hsm : sameSet i.assignees (prTargetAssignees pr) <;> simp [hsm]

/-- C2 witness: an open draft PR with no assignees and author bob assigns a
linked issue to [bob] and sets its status to "In Development". -/
theorem sync_open_assigns_and_sets_status_witness :
    (sync_issue_status_with_pr apiOk prOpenDraftW [issAssigned2]).2 =
      ([{ issAssigned2 with assignees := ["bob"],
                            status := some "In Development" }], false) := by
  have h := sync_open_assigns_and_sets_status apiOk prOpenDraftW [issAssigned2]
    rfl rfl (fun _ => rfl) (fun _ => rfl)
  rw [h]
  rfl

/-- A PR closed without merging. -/
def prClosedW : PRSnapshot := ⟨false, "closed", false, ["dave"], "alice"⟩

/-- A linked issue with assignees, for the clearing scenario. -/
def issAssigned5 : IssueState := ⟨5, "open", ["alice"], some "In Development"⟩

/-- C3: for every PR snapshot with merged = false and state = "closed", when
none of the unassign or status-set calls raises, sync_issue_status_with_pr
sets each linked issue's status to "Selected for Development" and leaves
every linked issue without assignees (issues that had any get them all
removed). -/
theorem sync_closed_resets_and_clears (api : ApiBehavior) (pr : PRSnapshot)
    (issues : List IssueState) (hm : pr.merged = false) (hcl : pr.state = "closed")
    (hr : ∀ k, api.removeAssigneesFails k = false)
    (hs : ∀ k, api.setStatusFails k = false) :
    (sync_issue_status_with_pr api pr issues).2 =
      (issues.map (fun i =>
        { i with assignees := [],
                 status := some "Selected for Development" }), false) := by
  unfold sync_issue_status_with_pr
  rw [hm, hcl]
  simp only [Bool.false_eq_true, if_false]
  rw [if_pos (by simp)]
  apply processIssues_map
  intro i
  unfold processClosedIssue
  rw [hr i.number, hs i.number]
  by_cases hne : i.assignees.isEmpty <;>
    simp_all [List.isEmpty_iff]

/-- C3 witness: a PR closed without merging clears the assignees of a linked
issue and resets its status to "Selected for Development". -/
theorem sync_closed_resets_and_clears_witness :
    (sync_issue_status_with_pr apiOk prClosedW [issAssigned5]).2 =
      ([{ issAssigned5 with assignees := [],
                            status := some "Selected for Development" }], false) := by
  have h := sync_closed_resets_and_clears apiOk prClosedW [issAssigned5]
    rfl rfl (fun _ => rfl) (fun _ => rfl)
  rw [h]
  rfl

/-- An oracle where only the close call on issue 1 raises. -/
def apiCloseRaises1 : ApiBehavior :=
  ⟨fun k => k == 1, fun _ => false, fun _ => false, fun _ => false⟩

/-- Two open linked issues for the close-failure run. -/
def issCx1 : IssueState := ⟨1, "open", [], none⟩

/-- The second linked issue of the close-failure run. -/
def issCx2 : IssueState := ⟨2, "open", [], none⟩

/-- C4 counterexample: the close edit is not inside a try/except.  On a merged
PR with linked open issues 1 and 2, when the close call on issue 1 raises,
the run aborts: issue 1's status is never set, issue 2 is not processed at
all, and both issues are left untouched. -/
theorem close_call_is_not_wrapped :
    sync_issue_status_with_pr apiCloseRaises1 prMergedW [issCx1, issCx2] =
      ([Action.closeIssue 1], [issCx1, issCx2], true)
    ∧ Action.setStatus 1 "Done" ∉
        (sync_issue_status_with_pr apiCloseRaises1 prMergedW [issCx1, issCx2]).1 := by
  constructor
  · rfl
  · decide

/-- An oracle whose remove call raises on issue 5, assign call on issue 6,
close call on issue 7 and status-set call on issue 8. -/
def apiMixed : ApiBehavior :=
  ⟨fun k => k == 7, fun k => k == 5, fun k => k == 6, fun k => k == 8⟩

/-- An issue with assignees whose removal will raise. -/
def issW5 : IssueState := ⟨5, "open", ["alice"], none⟩

/-- An issue whose assign call will raise. -/
def issW6 : IssueState := ⟨6, "open", ["carol"], none⟩

/-- An open issue whose close call will raise. -/
def issW7 : IssueState := ⟨7, "open", [], none⟩

/-- An issue whose status-set call will raise. -/
def issW8 : IssueState := ⟨8, "open", [], none⟩

/-- C4 (amended): the remove-assignees and set-assignees calls are wrapped —
when one of them raises and the status-set does not, the per-issue step still
sets the status and does not abort — while the close call and the GraphQL
status-set call are not caught: a raising close aborts at once with the issue
untouched, a raising status-set aborts in every branch; at the loop level an
aborting step leaves all remaining issues unprocessed and a non-aborting step
lets them be processed. -/
theorem sync_wrapped_and_unwrapped_calls (api : ApiBehavior) (pr : PRSnapshot)
    (iss : IssueState) :
    (iss.assignees.isEmpty = false → api.removeAssigneesFails iss.number = true →
      api.setStatusFails iss.number = false →
      processClosedIssue api iss =
        ([Action.removeAssignees iss.number iss.assignees,
          Action.setStatus iss.number "Selected for Development"],
          { iss with status := some "Selected for Development" }, false))
    ∧ (sameSet iss.assignees (prTargetAssignees pr) = false →
        api.setAssigneesFails iss.number = true →
        api.setStatusFails iss.number = false →
        processOpenIssue api pr iss =
          ([Action.setAssignees iss.number (prTargetAssignees pr),
            Action.setStatus iss.number (openTargetStatus pr)],
            { iss with status := some (openTargetStatus pr) }, false))
    ∧ (iss.state = "open" → api.closeFails iss.number = true →
        processMergedIssue api iss = ([Action.closeIssue iss.number], iss, true))
    ∧ (api.setStatusFails iss.number = true →
        (processMergedIssue api iss).2.2 = true
        ∧ (processClosedIssue api iss).2.2 = true
        ∧ (processOpenIssue api pr iss).2.2 = true)
    ∧ (∀ step : IssueState → List Action × IssueState × Bool,
        ∀ (i : IssueState) (rest : List IssueState), (step i).2.2 = true →
          processIssues step (i :: rest) = ((step i).1, (step i).2.1 :: rest, true))
    ∧ (∀ step : IssueState → List Action × IssueState × Bool,
        ∀ (i : IssueState) (rest : List IssueState), (step i).2.2 = false →
          processIssues step (i :: rest) =
            ((step i).1 ++ (processIssues step rest).1,
              (step i).2.1 :: (processIssues step rest).2.1,
              (processIssues step rest).2.2)) := by
  refine ⟨?_, ?_, ?_, ?_, ?_, ?_⟩
  · intro hne hrf hsf
    unfold processClosedIssue
    rw [hrf, hsf]
    simp [hne]
  · intro hss haf hsf
    unfold processOpenIssue
    rw [haf, hsf]
    simp [hss]
  · intro hst hcf
    unfold processMergedIssue
    rw [hcf]
    simp [hst]
  · intro hsf
    refine ⟨?_, ?_, ?_⟩
    · unfold processMergedIssue
      rw [hsf]
      by_cases hst : iss.state == "open" <;>
        by_cases hcf : api.closeFails iss.number <;> simp [hst, hcf]
    · unfold processClosedIssue
      rw [hsf]
      simp
    · unfold processOpenIssue
      rw [hsf]
      simp
  · intro step i rest hab
    simp [processIssues, hab]
  · intro step i rest hab
    simp [processIssues, hab]

/-- C4 (amended) witness: each clause of the exception-handling theorem at a
concrete oracle, PR and issue. -/
theorem sync_wrapped_and_unwrapped_calls_witness :
    processClosedIssue apiMixed issW5 =
      ([Action.removeAssignees 5 ["alice"],
        Action.setStatus 5 "Selected for Development"],
        { issW5 with status := some "Selected for Development" }, false)
    ∧ processOpenIssue apiMixed prOpenDraftW issW6 =
        ([Action.setAssignees 6 ["bob"], Action.setStatus 6 "In Development"],
          { issW6 with status := some "In Development" }, false)
    ∧ processMergedIssue apiMixed issW7 = ([Action.closeIssue 7], issW7, true)
    ∧ (processMergedIssue apiMixed issW8).2.2 = true
    ∧ processIssues (processMergedIssue apiMixed) [issW7, issW5] =
        ([Action.closeIssue 7], [issW7, issW5], true) := by
  refine ⟨?_, ?_, ?_, ?_, ?_⟩
  · exact (sync_wrapped_and_unwrapped_calls apiMixed prOpenDraftW issW5).1
      (by decide) (by decide) (by decide)
  · exact (sync_wrapped_and_unwrapped_calls apiMixed prOpenDraftW issW6).2.1
      (by decide) (by decide) (by decide)
  · exact (sync_wrapped_and_unwrapped_calls apiMixed prOpenDraftW issW7).2.2.1
      (by decide) (by decide)
  · exact ((sync_wrapped_and_unwrapped_calls apiMixed prOpenDraftW issW8).2.2.2.1
      (by decide)).1
  · have h := (sync_wrapped_and_unwrapped_calls apiMixed prOpenDraftW issW7).2.2.2.2.1
      (processMergedIssue apiMixed) issW7 [issW5] (by decide)
    rw [h]
    rfl

/-- C9: in the merged branch of sync_issue_status_with_pr — which is exactly
processIssues over processMergedIssue — the close call is attempted on a
linked issue precisely when its current state is "open"; an already
non-open (closed) linked issue is processed without any close edit, its
state component left unchanged, while its status is still set to "Done". -/
theorem merged_branch_closes_only_open_issues (api : ApiBehavior)
    (pr : PRSnapshot) (issues : List IssueState) (iss : IssueState)
    (hm : pr.merged = true)
    (hc : api.closeFails iss.number = false)
    (hs : api.setStatusFails iss.number = false) :
    sync_issue_status_with_pr api pr issues =
      processIssues (processMergedIssue api) issues
    ∧ (Action.closeIssue iss.number ∈ (processMergedIssue api iss).1 ↔
        iss.state = "open")
    ∧ (iss.state ≠ "open" →
        processMergedIssue api iss =
          ([Action.setStatus iss.number "Done"],
            { iss with status := some "Done" }, false)) := by
  refine ⟨?_, ?_, ?_⟩
  · unfold sync_issue_status_with_pr
    rw [hm]
    simp
  · unfold processMergedIssue
    rw [hc, hs]
    by_cases hst : iss.state = "open" <;> simp [hst]
  · intro hst
    unfold processMergedIssue
    rw [hs]
    simp [hst]

/-- C9 witness: with PR 42 merged, open issue 10 gets a close edit while
already-closed issue 11 gets none, keeps its state, and still goes to
"Done". -/
theorem merged_branch_closes_only_open_issues_witness :
    sync_issue_status_with_pr apiOk prMergedW [issOpen10, issClosed11] =
      processIssues (processMergedIssue apiOk) [issOpen10, issClosed11]
    ∧ (Action.closeIssue 11 ∈ (processMergedIssue apiOk issClosed11).1 ↔
        issClosed11.state = "open")
    ∧ (issClosed11.state ≠ "open" →
        processMergedIssue apiOk issClosed11 =
          ([Action.setStatus 11 "Done"],
            { issClosed11 with status := some "Done" }, false)) :=
  merged_branch_closes_only_open_issues apiOk prMergedW [issOpen10, issClosed11]
    issClosed11 rfl rfl rfl

/-- C5 and C10 use an environment whose item lookup never succeeds; the
validation errors fire before it is ever consulted. -/
def envNoItems : SetStatusEnv := ⟨fun _ => none, []⟩

/-- C5 counterexample: with issue_number = 0 supplied and issue_node_id not
supplied, exactly one of the two arguments is supplied, yet set_issue_status
raises the "Either ... must be provided." ValueError — the validation tests
truthiness, not presence, and 0 is falsy in Python. -/
theorem supplied_zero_issue_number_is_rejected :
    (some (0 : Int)).isSome = true
    ∧ (none : Option String).isSome = false
    ∧ set_issue_status envNoItems "Done" (some 0) none =
        ([], Except.error eitherMsg) :=
  ⟨rfl, rfl, rfl⟩

/-- C5 (amended): the validation of set_issue_status is by Python truthiness:
when neither argument is truthy (None, 0 and "" are falsy) the call fails at
once with the "Either ..." ValueError, when both are truthy it fails at once
with the "Only one ..." ValueError — in both cases with an empty trace, so
before any network call — and when exactly one is truthy the validation
passes. -/
theorem set_issue_status_validates_by_truthiness (env : SetStatusEnv)
    (status : String) (issue_number : Option Int) (issue_node_id : Option String) :
    (optIntTruthy issue_number = false → optStrTruthy issue_node_id = false →
      set_issue_status env status issue_number issue_node_id =
        ([], Except.error eitherMsg))
    ∧ (optIntTruthy issue_number = true → optStrTruthy issue_node_id = true →
        set_issue_status env status issue_number issue_node_id =
          ([], Except.error onlyOneMsg))
    ∧ (optIntTruthy issue_number ≠ optStrTruthy issue_node_id →
        validateArgs issue_number issue_node_id = none) := by
  refine ⟨?_, ?_, ?_⟩
  · intro h1 h2
    unfold set_issue_status validateArgs
    rw [h1, h2]
    rfl
  · intro h1 h2
    unfold set_issue_status validateArgs
    rw [h1, h2]
    rfl
  · intro hne
    unfold validateArgs
    cases h1 : optIntTruthy issue_number <;>
      cases h2 : optStrTruthy issue_node_id <;> simp_all

/-- C5 (amended) witness: the three validation outcomes at concrete
arguments. -/
theorem set_issue_status_validates_by_truthiness_witness :
    set_issue_status envNoItems "Done" none none = ([], Except.error eitherMsg)
    ∧ set_issue_status envNoItems "Done" (some 3) (some "NODE") =
        ([], Except.error onlyOneMsg)
    ∧ validateArgs (some 3) none = none :=
  ⟨(set_issue_status_validates_by_truthiness envNoItems "Done" none none).1
      rfl rfl,
    (set_issue_status_validates_by_truthiness envNoItems "Done" (some 3)
      (some "NODE")).2.1 (by decide) (by decide),
    (set_issue_status_validates_by_truthiness envNoItems "Done" (some 3)
      none).2.2 (by decide)⟩

/-- When validation passes and issue_number is a supplied (possibly zero)
number, set_issue_status takes the issue_number path: it resolves the item id
through the issue lookup and only then continues. -/
lemma set_issue_status_number_path (env : SetStatusEnv) (status : String)
    (k : Int) (issue_node_id : Option String)
    (hv : validateArgs (some k) issue_node_id = none) :
    set_issue_status env status (some k) issue_node_id =
      match env.getIssueItemId k with
      | none => ([NetCall.getIssue k],
          Except.error "Could not resolve a project item for the issue.")
      | some itemId => resolve_then_set env status itemId [NetCall.getIssue k] := by
  unfold set_issue_status
  rw [hv]

/-- C10: the exactly-one validation tests truthiness rather than presence:
set_issue_status with issue_number = 0 and issue_node_id = None raises the
"Either issue_number or issue_node_id must be provided." ValueError although
an issue_number argument was supplied; and with issue_number = 0 together
with a non-empty issue_node_id both validation checks pass and the call
proceeds on the issue_number path — its first network call is the issue
lookup for number 0, because the branch tests "issue_number is not None". -/
theorem validation_by_truthiness_not_presence (env : SetStatusEnv)
    (status : String) (nid : String) (hnid : nid ≠ "") :
    set_issue_status env status (some 0) none = ([], Except.error eitherMsg)
    ∧ validateArgs (some 0) (some nid) = none
    ∧ (set_issue_status env status (some 0) (some nid)).1.head? =
        some (NetCall.getIssue 0) := by
  have hv : validateArgs (some 0) (some nid) = none := by
    unfold validateArgs optIntTruthy optStrTruthy
    simp [hnid]
  refine ⟨rfl, hv, ?_⟩
  rw [set_issue_status_number_path env status 0 (some nid) hv]
  cases env.getIssueItemId 0 with
  | none => rfl
  | some itemId =>
    unfold resolve_then_set
    cases get_status_field_id env.fields status <;> rfl

/-- C10 witness: the two truthiness behaviours at issue_number 0 and node id
"NODE7". -/
theorem validation_by_truthiness_not_presence_witness :
    set_issue_status envNoItems "Done" (some 0) none = ([], Except.error eitherMsg)
    ∧ validateArgs (some 0) (some "NODE7") = none
    ∧ (set_issue_status envNoItems "Done" (some 0) (some "NODE7")).1.head? =
        some (NetCall.getIssue 0) :=
  validation_by_truthiness_not_presence envNoItems "Done" "NODE7" (by decide)

/-- When no field named "Status" has an option named like the requested
status, the loop of get_status_field_id never sets option_id. -/
lemma statusFold_snd_none (field_name : String) (fields : List ProjectField)
    (h : ∀ f ∈ fields, f.name = "Status" → ∀ o ∈ f.options, o.name ≠ field_name) :
    ∀ acc : Option String × Option String, acc.2 = none →
      (List.foldl (statusStep field_name) acc fields).2 = none := by
  induction fields with
  | nil => intro acc hacc; simpa using hacc
  | cons f rest ih =>
    intro acc hacc
    rw [List.foldl_cons]
    refine ih (fun g hg => h g (List.mem_cons_of_mem f hg)) _ ?_
    unfold statusStep
    by_cases hname : f.name = "Status"
    · have hfind : f.options.find? (fun o => o.name == field_name) = none := by
        refine List.find?_eq_none.mpr ?_
        intro o ho
        simp [h f (List.mem_cons_self f rest) hname o ho]
      simp [hname, hfind, hacc]
    · simp [hname, hacc]

/-- When no field named "Status" has an option named like the requested
status — in particular when no "Status" field exists at all —
get_status_field_id raises its ValueError. -/
lemma get_status_field_id_not_found (fields : List ProjectField)
    (field_name : String)
    (h : ∀ f ∈ fields, f.name = "Status" → ∀ o ∈ f.options, o.name ≠ field_name) :
    get_status_field_id fields field_name =
      Except.error ("Field '" ++ field_name ++ "' not found in project fields.") := by
  have h2 := statusFold_snd_none field_name fields h (none, none) rfl
  unfold get_status_field_id statusFieldFold
  cases hfold : List.foldl (statusStep field_name) (none, none) fields with
  | mk a b =>
    rw [hfold] at h2
    simp only at h2
    subst h2
    cases a <;> rfl

/-- C6: whenever the requested status name does not match any option of a
project field named "Status" (also when no such field exists), and the call
gets past validation and item resolution, set_issue_status fails with the
field-not-found ValueError of get_status_field_id, and the trace shows that
the set_field_option mutation is never attempted. -/
theorem status_not_found_blocks_mutation (env : SetStatusEnv) (status : String)
    (issue_number : Option Int) (issue_node_id : Option String)
    (hv : validateArgs issue_number issue_node_id = none)
    (hres : ∀ k, issue_number = some k → (env.getIssueItemId k).isSome = true)
    (hnm : ∀ f ∈ env.fields, f.name = "Status" → ∀ o ∈ f.options, o.name ≠ status) :
    ∃ tr : List NetCall,
      set_issue_status env status issue_number issue_node_id =
        (tr, Except.error ("Field '" ++ status ++ "' not found in project fields."))
      ∧ ∀ c ∈ tr, ∀ itemId fieldId optionId,
          c ≠ NetCall.setFieldOption itemId fieldId optionId := by
  have herr := get_status_field_id_not_found env.fields status hnm
  cases issue_number with
  | some k =>
    obtain ⟨itemId, hitem⟩ := Option.isSome_iff_exists.mp (hres k rfl)
    rw [set_issue_status_number_path env status k issue_node_id hv, hitem]
    refine ⟨[NetCall.getIssue k, NetCall.fetchProjectFields], ?_, ?_⟩
    · show resolve_then_set env status itemId [NetCall.getIssue k] = _
      unfold resolve_then_set
      rw [herr]
      rfl
    · intro c hc itemId2 fieldId2 optionId2
      simp only [List.mem_cons, List.not_mem_nil, or_false] at hc
      rcases hc with hc | hc <;> subst hc <;> simp
  | none =>
    have hpath : set_issue_status env status none issue_node_id =
        resolve_then_set env status (issue_node_id.getD "") [] := by
      unfold set_issue_status
      rw [hv]
    rw [hpath]
    refine ⟨[NetCall.fetchProjectFields], ?_, ?_⟩
    · unfold resolve_then_set
      rw [herr]
      rfl
    · intro c hc itemId2 fieldId2 optionId2
      simp only [List.mem_cons, List.not_mem_nil, or_false] at hc
      subst hc
      simp

/-- A project whose only Status options are "In Development": requesting
"Done" therefore cannot match. -/
def envC6 : SetStatusEnv :=
  ⟨fun _ => some "ITEM", [⟨"F1", "Status", [⟨"o1", "In Development"⟩]⟩]⟩

/-- C6 witness: requesting "Done" against a Status field without that option
fails with the ValueError and the trace holds no set_field_option call. -/
theorem status_not_found_blocks_mutation_witness :
    set_issue_status envC6 "Done" (some 5) none =
      ([NetCall.getIssue 5, NetCall.fetchProjectFields],
        Except.error "Field 'Done' not found in project fields.")
    ∧ NetCall.setFieldOption "ITEM" "F1" "o1" ∉
        (set_issue_status envC6 "Done" (some 5) none).1 := by
  obtain ⟨tr, h1, h2⟩ := status_not_found_blocks_mutation envC6 "Done" (some 5)
    none rfl (fun _ _ => rfl) (by decide)
  refine ⟨rfl, ?_⟩
  intro hmem
  rw [h1] at hmem
  exact h2 _ hmem "ITEM" "F1" "o1" rfl

/-- C7 (amended): run_graphql returns the parsed body exactly when the HTTP
status code is the literal 200, and raises on every other status code — also
on the other 2xx success codes. -/
theorem run_graphql_raises_iff_not_200 (resp : HttpResponse) :
    (graphqlSucceeds resp = true ↔ resp.statusCode = 200)
    ∧ (resp.statusCode = 200 → run_graphql resp = Except.ok resp.body) := by
  constructor
  · unfold graphqlSucceeds run_graphql
    by_cases h : resp.statusCode = 200 <;> simp [h]
  · intro h
    unfold run_graphql
    simp [h]

/-- A 201 Created response. -/
def resp201 : HttpResponse := ⟨201, "body"⟩

/-- A plain 200 response. -/
def resp200 : HttpResponse := ⟨200, "ok"⟩

/-- C7 counterexample: 201 is a 2xx success status, yet run_graphql raises on
it — the source tests status_code != 200, not the 2xx range. -/
theorem non_200_2xx_still_raises :
    is2xx 201 = true ∧ graphqlSucceeds resp201 = false := by
  exact ⟨by decide, rfl⟩

/-- C7 (amended) witness: on a 200 response run_graphql succeeds and returns
the body. -/
theorem run_graphql_raises_iff_not_200_witness :
    graphqlSucceeds resp200 = true ∧ run_graphql resp200 = Except.ok "ok" :=
  ⟨(run_graphql_raises_iff_not_200 resp200).1.mpr rfl,
    (run_graphql_raises_iff_not_200 resp200).2 rfl⟩

/-- Once the cache cell is populated with v, every further call returns v
without fetching and leaves the cell as it is. -/
lemma runFieldCalls_cached (k : Nat) (v : List ProjectField)
    (remote : List ProjectField) :
    runFieldCalls k (some v) remote = (List.replicate k (v, false), some v) := by
  induction k with
  | zero => rfl
  | succ n ih => simp [runFieldCalls, get_project_fields, ih, List.replicate]

/-- C8: in any sequence of n + 1 calls to get_project_fields on the same
handler starting from the empty cache, the first call fetches over the
network and every subsequent call returns that same fetched table without
another fetch; the cache cell ends populated with it. -/
theorem get_project_fields_fetches_at_most_once (n : Nat)
    (remote : List ProjectField) :
    runFieldCalls (n + 1) none remote =
      ((remote, true) :: List.replicate n (remote, false), some remote) := by
  simp [runFieldCalls, get_project_fields, runFieldCalls_cached]

end PrIssueSync
